import Mathlib

/-!
Verification development for the django-vite asset loader
(`django_vite/core/asset_loader.py`).

The Python module is shallowly embedded below:

* pure data (configuration records, manifest entries) become Lean structures;
* the manifest JSON document is modelled as an association list of rows,
  each row an association list of field names to JSON values of the
  schema's types (strings, booleans, lists of strings);
* network and filesystem effects are passed in explicitly: the dev-server
  probe is a function from a URL to an optional HTTP status (`none`
  meaning connection failure), and the manifest file is a
  `ManifestSource` value that is either unreadable or a parsed JSON
  document;
* Python exceptions become `Except` values (`ViteErr` for
  `DjangoViteAssetNotFoundError`, `String` for the wrapped
  `DjangoViteManifestError`), and the unguarded recursion of the CSS
  dependency walk is made total with a fuel parameter
  (`ViteErr.outOfFuel` marks fuel exhaustion, where the Python code
  would keep recursing);
* tag rendering (`django_vite/core/tag_generator.py` is not part of the
  sources at hand) is modelled from the spec as an inductive `Tag`
  carrying the tag kind and URL; extra HTML attributes are not observed
  by any property below and are abstracted away.

Field renaming: the configuration field `static_url_prefix` of the
source is called `staticUrlPref` here; everything else keeps the
source's names.
-/

set_option autoImplicit false

/-- Configuration record, embedding the `DjangoViteConfig` NamedTuple
with its default values (source lines 65-95). -/
structure DjangoViteConfig where
  dev_mode : Bool := false
  dev_server_protocol : String := "http"
  dev_server_host : String := "localhost"
  dev_server_port : Nat := 5173
  staticUrlPref : String := ""
  manifest_path : Option String := none
  legacy_polyfills_motif : String := "legacy-polyfills"
  ws_client_url : String := "@vite/client"
  react_refresh_url : String := "@react-refresh"
deriving DecidableEq, Repr

/-- One manifest row, embedding the `ManifestEntry` NamedTuple with its
default values (source lines 98-109).  The Python `Optional[bool]`
flags default to `False` and the schema only ever sets booleans, so
they are Lean `Bool`s. -/
structure ManifestEntry where
  file : String
  src : Option String := none
  isEntry : Bool := false
  isDynamicEntry : Bool := false
  css : List String := []
  imports : List String := []
  dynamicImports : List String := []
deriving DecidableEq, Repr

/-- JSON values that can appear in a manifest row under the schema:
strings, booleans and arrays of strings. -/
inductive JsonVal where
  | s (v : String)
  | b (v : Bool)
  | ls (v : List String)
deriving DecidableEq, Repr

/-- A raw manifest row: field names mapped to JSON values, in document
order (a Python `dict` from `json.loads`; keys are unique). -/
abbrev RawEntry := List (String × JsonVal)

/-- A raw manifest document: logical asset paths mapped to raw rows, in
document order (keys unique, as in a JSON object). -/
abbrev RawManifest := List (String × RawEntry)

/-- HTML tag model.  `tag_generator.py` is not among the sources at
hand.  Modelled from the spec: the Tag Builder is a pure function layer
producing script / stylesheet / stylesheet-preload / preload tags from
a URL (extra attributes are not observed by any claim and are
abstracted away). -/
inductive Tag where
  | script (url : String)
  | stylesheet (url : String)
  | stylesheetPreload (url : String)
  | preload (url : String)
deriving DecidableEq, Repr

/-- Errors of the asset-generation layer: `assetNotFound` embeds
`DjangoViteAssetNotFoundError` with its message; `outOfFuel` marks
exhaustion of the fuel that makes the (unguarded, in Python) recursive
CSS walk total. -/
inductive ViteErr where
  | assetNotFound (msg : String)
  | outOfFuel
deriving DecidableEq, Repr

/-- Python dict lookup on an association list (keys unique). -/
def assocFind {α : Type} (path : String) : List (String × α) → Option α
  | [] => none
  | (k, v) :: rest => if k = path then some v else assocFind path rest

/-- The URL the dev-server probe requests, embedding source line 38:
`f"http://{config.dev_server_host}:{config.dev_server_port}/"`.
Note the scheme is the literal `http`, not `dev_server_protocol`. -/
def viteWebserverUrl (config : DjangoViteConfig) : String :=
  "http://" ++ config.dev_server_host ++ ":" ++ toString config.dev_server_port ++ "/"

/-- Embedding of `vite_is_serving` (source lines 23-49).  The network
is the explicit argument `probe`, mapping a URL to the HTTP status of a
GET against it, or `none` for a connection failure (the caught
`MaxRetryError` / `ConnectionError`). -/
def vite_is_serving (config : DjangoViteConfig) (probe : String → Option Nat) : Bool :=
  if config.dev_mode then
    match probe (viteWebserverUrl config) with
    | some status => status == 404
    | none => false
  else
    false

def ensureTrailingSlash (s : String) : String :=
  if s.endsWith "/" then s else s ++ "/"

/-- Embedding of `DjangoViteAppClient._get_dev_server_url` (source
lines 274-301) for relative static prefixes and asset paths, where
Python's `urljoin` concatenates.  No property below observes this
string's exact shape. -/
def get_dev_server_url (config : DjangoViteConfig) (path : String) : String :=
  let base := config.dev_server_protocol ++ "://" ++ config.dev_server_host ++ ":"
      ++ toString config.dev_server_port ++ "/"
  let prefixPart := if config.staticUrlPref = "" then "" else ensureTrailingSlash config.staticUrlPref
  base ++ prefixPart ++ path

/-- Embedding of `DjangoViteAppClient._get_production_server_url`
(source lines 303-325) without the `django.contrib.staticfiles`
branch, which is an external capability outside these sources; `urljoin`
is modelled for relative prefixes and paths, where it concatenates. -/
def get_production_server_url (config : DjangoViteConfig) (path : String) : String :=
  if config.staticUrlPref = "" then path
  else ensureTrailingSlash config.staticUrlPref ++ path

/-- State of a `ManifestClient` after construction (source lines
121-141): the parsed entry table, the optional legacy-polyfills entry,
and the identifiers used in error messages. -/
structure ManifestClient where
  entries : List (String × ManifestEntry)
  legacy_polyfills_entry : Option ManifestEntry
  app_name : String
  manifest_path : String
deriving DecidableEq, Repr

/-- Embedding of `ManifestClient.get` (source lines 233-250). -/
def ManifestClient.get (st : ManifestClient) (path : String) : Except ViteErr ManifestEntry :=
  match assocFind path st.entries with
  | some entry => .ok entry
  | none =>
    .error (.assetNotFound ("Cannot find " ++ path ++ " for app=" ++ st.app_name
      ++ " in Vite manifest at " ++ st.manifest_path))

/-- Bool test for `needle` occurring as a contiguous sublist of `hay`
(character-list form of Python's `needle in hay` on strings). -/
def subListOf (needle : List Char) : List Char → Bool
  | [] => needle.isEmpty
  | c :: t => needle.isPrefixOf (c :: t) || subListOf needle t

/-- Python's `needle in hay` substring test on strings. -/
def strContains (hay needle : String) : Bool :=
  subListOf needle.toList hay.toList

/-- `ManifestEntry._fields`: the field names of the NamedTuple. -/
def manifestEntryFields : List String :=
  ["file", "src", "isEntry", "isDynamicEntry", "css", "imports", "dynamicImports"]

/-- The dict comprehension of source lines 215-219: drop fields whose
name is not in `ManifestEntry._fields`. -/
def filterManifestFields (row : RawEntry) : RawEntry :=
  row.filter (fun kv => kv.1 ∈ manifestEntryFields)

/-- Read an optional string field of a row.  The manifest schema types
this field as a string; a value of another JSON type is treated as a
parse error (Python's untyped NamedTuple would store it as-is, but no
schema-conforming manifest produces one). -/
def getStrField (row : RawEntry) (key : String) : Except String (Option String) :=
  match assocFind key row with
  | none => .ok none
  | some (.s v) => .ok (some v)
  | some _ => .error ("field " ++ key ++ " is not a string")

/-- Read an optional boolean field of a row (see `getStrField` about
ill-typed values). -/
def getBoolField (row : RawEntry) (key : String) : Except String (Option Bool) :=
  match assocFind key row with
  | none => .ok none
  | some (.b v) => .ok (some v)
  | some _ => .error ("field " ++ key ++ " is not a boolean")

/-- Read an optional string-list field of a row (see `getStrField`
about ill-typed values). -/
def getStrListField (row : RawEntry) (key : String) : Except String (Option (List String)) :=
  match assocFind key row with
  | none => .ok none
  | some (.ls v) => .ok (some v)
  | some _ => .error ("field " ++ key ++ " is not a list of strings")

/-- `ManifestEntry(**filtered_manifest_entry_data)` (source line 220):
construct a `ManifestEntry` from the filtered row.  A row without a
`file` field raises (Python: `TypeError` for the missing required
argument), which the enclosing parse turns into a manifest error;
absent optional fields take the NamedTuple defaults. -/
def mkManifestEntry (row0 : RawEntry) : Except String ManifestEntry := do
  let row := filterManifestFields row0
  let fileOpt ← getStrField row "file"
  match fileOpt with
  | none => .error "missing 1 required positional argument: file"
  | some f => do
    let srcOpt ← getStrField row "src"
    let isEntryOpt ← getBoolField row "isEntry"
    let isDynOpt ← getBoolField row "isDynamicEntry"
    let cssOpt ← getStrListField row "css"
    let importsOpt ← getStrListField row "imports"
    let dynImportsOpt ← getStrListField row "dynamicImports"
    .ok { file := f
          src := srcOpt
          isEntry := isEntryOpt.getD false
          isDynamicEntry := isDynOpt.getD false
          css := cssOpt.getD []
          imports := importsOpt.getD []
          dynamicImports := dynImportsOpt.getD [] }

/-- The parsing loop of `ManifestClient._parse_manifest` (source lines
206-225), recursion replacing iteration: each row is constructed in
document order (the first bad row aborts the whole parse), entries are
accumulated in order, and the legacy-polyfills entry is the row of the
last key containing the motif (forward iteration keeps overwriting, so
a match found later in the document wins). -/
def parse_manifest (motif : String) : RawManifest →
    Except String (List (String × ManifestEntry) × Option ManifestEntry)
  | [] => .ok ([], none)
  | (path, row) :: rest =>
    match mkManifestEntry row with
    | .error e => .error e
    | .ok entry =>
      match parse_manifest motif rest with
      | .error e => .error e
      | .ok (entries, poly) =>
        .ok ((path, entry) :: entries,
          match poly with
          | some p => some p
          | none => if strContains path motif then some entry else none)

/-- The manifest file as seen by `_parse_manifest`: either unreadable
(file open failed, remote fetch failed, or `json.loads` raised — all
pre-parse failures, carrying the exception text) or a parsed JSON
document. -/
inductive ManifestSource where
  | unreadable (msg : String)
  | doc (d : RawManifest)
deriving DecidableEq, Repr

/-- The message wrapping of source lines 227-231. -/
def wrap_manifest_error (app_name manifest_path inner : String) : String :=
  "Cannot read Vite manifest file for app " ++ app_name ++ " at "
    ++ manifest_path ++ " : " ++ inner

/-- Full embedding of `ManifestClient._parse_manifest` (source lines
189-231): dev mode short-circuits to the empty output; otherwise any
failure (unreadable source or bad row) is wrapped into a single
manifest error naming the app and the manifest path. -/
def parse_manifest_full (dev_mode : Bool) (app_name manifest_path motif : String)
    (source : ManifestSource) :
    Except String (List (String × ManifestEntry) × Option ManifestEntry) :=
  if dev_mode then .ok ([], none)
  else
    match source with
    | .unreadable msg => .error (wrap_manifest_error app_name manifest_path msg)
    | .doc d =>
      match parse_manifest motif d with
      | .ok out => .ok out
      | .error e => .error (wrap_manifest_error app_name manifest_path e)

/-- Embedding of `ManifestClient.__init__` (source lines 121-141):
parse failures are swallowed and leave the entry table empty, so
construction is total. -/
def manifest_client_init (dev_mode : Bool) (app_name manifest_path motif : String)
    (source : ManifestSource) : ManifestClient :=
  match parse_manifest_full dev_mode app_name manifest_path motif source with
  | .ok out => ⟨out.1, out.2, app_name, manifest_path⟩
  | .error _ => ⟨[], none, app_name, manifest_path⟩

/-- A `django.core.checks.Warning` as built by `ManifestClient.check`:
message, stable id, and hint. -/
structure CheckWarning where
  msg : String
  wid : String
  hint : String
deriving DecidableEq, Repr

/-- Embedding of `ManifestClient.check` (source lines 164-181): re-run
the parse, return no warning on success (or in dev mode, where the
parse is skipped), and convert a manifest error into a single
non-fatal warning. -/
def manifest_check (dev_mode : Bool) (app_name manifest_path motif : String)
    (source : ManifestSource) : List CheckWarning :=
  match parse_manifest_full dev_mode app_name manifest_path motif source with
  | .ok _ => []
  | .error e =>
    [{ msg := e
       wid := "django_vite.W001"
       hint := "Make sure you have generated a manifest file, and that DJANGO_VITE[\""
         ++ app_name ++ "\"][\"manifest_path\"] points to the correct location." }]

/-- The loop over `manifest_entry.css` of source lines 512-516: emit a
tag (through `tag_generator` applied to the production URL) for each
CSS path not yet processed, appending each newly-seen path to the
running seen-list, in iteration order. -/
def cssOwnWalk (config : DjangoViteConfig) (tagGen : String → Tag) :
    List String → List String → List Tag × List String
  | [], already_processed => ([], already_processed)
  | c :: rest, already_processed =>
    if c ∈ already_processed then cssOwnWalk config tagGen rest already_processed
    else
      let out := cssOwnWalk config tagGen rest (already_processed ++ [c])
      (tagGen (get_production_server_url config c) :: out.1, out.2)

/-- The body of `DjangoViteAppClient._generate_css_files_of_asset`
(source lines 483-518), processing a whole worklist of asset paths:
for each path, resolve its entry, recursively collect the CSS tags of
its `imports` (the loop of source lines 506-510), then emit its own
`css` list (source lines 512-516), threading the seen-list through
everything (in Python, `already_processed` is one mutable list aliased
through every recursive call).  The Python recursion has no cycle
guard; here a fuel unit is consumed per processed path so the function
is total (and structurally recursive, hence executable by the kernel);
`ViteErr.outOfFuel` marks exhaustion, where Python would keep
recursing. -/
def cssWalkPaths (config : DjangoViteConfig) (st : ManifestClient) (tagGen : String → Tag) :
    Nat → List String → List String → Except ViteErr (List Tag × List String)
  | _, [], already_processed => .ok ([], already_processed)
  | 0, _ :: _, _ => .error .outOfFuel
  | fuel + 1, i :: rest, already_processed =>
    match st.get i with
    | .error e => .error e
    | .ok entry =>
      match cssWalkPaths config st tagGen fuel entry.imports already_processed with
      | .error e => .error e
      | .ok (t1, s1) =>
        let own := cssOwnWalk config tagGen entry.css s1
        match cssWalkPaths config st tagGen fuel rest own.2 with
        | .error e => .error e
        | .ok (t2, s2) => .ok (t1 ++ own.1 ++ t2, s2)

/-- Embedding of `DjangoViteAppClient._generate_css_files_of_asset`
(source lines 483-518) for a single asset path: the worklist walk
started on `[path]`. -/
def generate_css_files_of_asset (fuel : Nat) (config : DjangoViteConfig)
    (st : ManifestClient) (path : String) (already_processed : List String)
    (tagGen : String → Tag) : Except ViteErr (List Tag × List String) :=
  cssWalkPaths config st tagGen fuel [path] already_processed

/-- Raw depth-first CSS order of a worklist of asset paths: every
`css` path reachable from them, imports visited recursively before the
entry's own `css` list, in list order, duplicates kept.  This is the
spec-side description of the walk's visit order ("depth-first import
order"), against which the deduplicating embedding above is compared;
it follows the same fuel discipline as `cssWalkPaths`. -/
def cssDfsRaw (st : ManifestClient) : Nat → List String → Except ViteErr (List String)
  | _, [] => .ok []
  | 0, _ :: _ => .error .outOfFuel
  | fuel + 1, i :: rest =>
    match st.get i with
    | .error e => .error e
    | .ok entry =>
      match cssDfsRaw st fuel entry.imports with
      | .error e => .error e
      | .ok l1 =>
        match cssDfsRaw st fuel rest with
        | .error e => .error e
        | .ok l2 => .ok (l1 ++ entry.css ++ l2)

/-- First-occurrence deduplication relative to a seen-list: keep each
element of the input the first time it is met and is not already in
`seen`.  The deduplicating walk emits exactly this sublist of the raw
depth-first order. -/
def dedupNew : List String → List String → List String
  | [], _ => []
  | c :: rest, seen =>
    if c ∈ seen then dedupNew rest seen
    else c :: dedupNew rest (seen ++ [c])

/-- The intended output of the deduplicating CSS walk, as a function of
the raw depth-first CSS order: the first-occurrence deduplication of
the raw order relative to the incoming seen-list, rendered through the
tag generator at production URLs, with the seen-list extended by the
newly emitted paths in order. -/
def cssWalkSpecOut (config : DjangoViteConfig) (tagGen : String → Tag)
    (seen : List String) : Except ViteErr (List String) → Except ViteErr (List Tag × List String)
  | .error e => .error e
  | .ok raw =>
    .ok ((dedupNew raw seen).map (fun c => tagGen (get_production_server_url config c)),
      seen ++ dedupNew raw seen)

/-- The loop over `manifest_entry.imports` of source lines 385-394 (and
446-455): resolve each import through `get` and keep its `file`. -/
def getImportFiles (st : ManifestClient) : List String → Except ViteErr (List String)
  | [] => .ok []
  | d :: rest =>
    match st.get d with
    | .error e => .error e
    | .ok entry =>
      match getImportFiles st rest with
      | .error e => .error e
      | .ok fs => .ok (entry.file :: fs)

/-- Embedding of `DjangoViteAppClient.generate_vite_asset` (source
lines 327-396), returning the ordered list of tags the source joins
with a newline: when the dev server is live, a single dev-server
script tag; otherwise the transitive CSS stylesheet tags, the entry's
own script tag, then one modulepreload tag per immediate import. -/
def generate_vite_asset (fuel : Nat) (config : DjangoViteConfig)
    (probe : String → Option Nat) (st : ManifestClient) (path : String) :
    Except ViteErr (List Tag) :=
  if vite_is_serving config probe then
    .ok [Tag.script (get_dev_server_url config path)]
  else
    match st.get path with
    | .error e => .error e
    | .ok entry =>
      match generate_css_files_of_asset fuel config st path [] Tag.stylesheet with
      | .error e => .error e
      | .ok (cssTags, _) =>
        match getImportFiles st entry.imports with
        | .error e => .error e
        | .ok files =>
          .ok (cssTags ++ [Tag.script (get_production_server_url config entry.file)]
            ++ files.map (fun f => Tag.preload (get_production_server_url config f)))

/-- Embedding of `DjangoViteAppClient.preload_vite_asset` (source lines
398-457): empty in dev mode; otherwise the entry's own preload tag,
then the transitive CSS preload tags, then one preload tag per
immediate import. -/
def preload_vite_asset (fuel : Nat) (config : DjangoViteConfig)
    (probe : String → Option Nat) (st : ManifestClient) (path : String) :
    Except ViteErr (List Tag) :=
  if vite_is_serving config probe then
    .ok []
  else
    match st.get path with
    | .error e => .error e
    | .ok entry =>
      match generate_css_files_of_asset fuel config st path [] Tag.stylesheetPreload with
      | .error e => .error e
      | .ok (cssTags, _) =>
        match getImportFiles st entry.imports with
        | .error e => .error e
        | .ok files =>
          .ok (Tag.preload (get_production_server_url config entry.file) :: cssTags
            ++ files.map (fun f => Tag.preload (get_production_server_url config f)))

/-- Embedding of `DjangoViteAppClient.generate_vite_legacy_polyfills`
(source lines 539-578): empty in dev mode; otherwise the script tag of
the retained legacy-polyfills entry, or `DjangoViteAssetNotFoundError`
when none was retained. -/
def generate_vite_legacy_polyfills (config : DjangoViteConfig)
    (probe : String → Option Nat) (st : ManifestClient) : Except ViteErr (List Tag) :=
  if vite_is_serving config probe then
    .ok []
  else
    match st.legacy_polyfills_entry with
    | none =>
      .error (.assetNotFound ("Vite legacy polyfills not found in manifest at "
        ++ st.manifest_path))
    | some entry => .ok [Tag.script (get_production_server_url config entry.file)]

/-- Embedding of `DjangoViteAppClient.generate_vite_legacy_asset`
(source lines 580-616): empty in dev mode; otherwise the script tag of
the resolved entry. -/
def generate_vite_legacy_asset (config : DjangoViteConfig)
    (probe : String → Option Nat) (st : ManifestClient) (path : String) :
    Except ViteErr (List Tag) :=
  if vite_is_serving config probe then
    .ok []
  else
    match st.get path with
    | .error e => .error e
    | .ok entry => .ok [Tag.script (get_production_server_url config entry.file)]

/-- The legacy flat settings keys (source lines 684-695), each either
absent from the Django settings module or present with a value.
`assets_path` is the key `DJANGO_VITE_ASSETS_PATH`, which maps to no
configuration field and is only counted for presence. -/
structure LegacySettings where
  dev_mode : Option Bool := none
  dev_server_protocol : Option String := none
  dev_server_host : Option String := none
  dev_server_port : Option Nat := none
  static_url_pref : Option String := none
  manifest_path : Option String := none
  legacy_polyfills_motif : Option String := none
  ws_client_url : Option String := none
  react_refresh_url : Option String := none
  assets_path : Option String := none
deriving DecidableEq, Repr

/-- Whether any legacy flat key is present in the settings
(`applied_legacy_settings` nonempty, source lines 753-759). -/
def hasLegacySettings (ls : LegacySettings) : Bool :=
  ls.dev_mode.isSome || ls.dev_server_protocol.isSome || ls.dev_server_host.isSome
    || ls.dev_server_port.isSome || ls.static_url_pref.isSome || ls.manifest_path.isSome
    || ls.legacy_polyfills_motif.isSome || ls.ws_client_url.isSome
    || ls.react_refresh_url.isSome || ls.assets_path.isSome

/-- The configuration built from legacy settings (source lines
783-788): each present legacy key is mapped one-to-one onto its
configuration field, absent keys take the `DjangoViteConfig` defaults,
and `DJANGO_VITE_ASSETS_PATH` is dropped. -/
def legacyConfig (ls : LegacySettings) : DjangoViteConfig :=
  { dev_mode := ls.dev_mode.getD false
    dev_server_protocol := ls.dev_server_protocol.getD "http"
    dev_server_host := ls.dev_server_host.getD "localhost"
    dev_server_port := ls.dev_server_port.getD 5173
    staticUrlPref := ls.static_url_pref.getD ""
    manifest_path := ls.manifest_path
    legacy_polyfills_motif := ls.legacy_polyfills_motif.getD "legacy-polyfills"
    ws_client_url := ls.ws_client_url.getD "@vite/client"
    react_refresh_url := ls.react_refresh_url.getD "@react-refresh" }

/-- The Django settings environment as the registry sees it:
`djangoVite = some d` when the `DJANGO_VITE` attribute is defined
(possibly as an empty mapping), plus the legacy flat keys. -/
structure SettingsModel where
  djangoVite : Option (List (String × DjangoViteConfig)) := none
  legacy : LegacySettings := {}

/-- The deprecation signals the registry can emit (source lines
765-781): mixing the structured setting with legacy keys, or using
legacy keys alone. -/
inductive RegistryWarning where
  | mixedSettings
  | legacyDeprecation
deriving DecidableEq, Repr

/-- Embedding of `DjangoViteAssetLoader._apply_django_vite_settings`
(source lines 729-744): a falsy (absent or empty) `DJANGO_VITE`
setting registers nothing; otherwise each named configuration becomes
one app client. -/
def apply_django_vite_settings (s : SettingsModel) : List (String × DjangoViteConfig) :=
  match s.djangoVite with
  | none => []
  | some d => if d.isEmpty then [] else d

/-- Embedding of `DjangoViteAssetLoader._apply_legacy_django_vite_settings`
(source lines 746-789): no legacy key present registers nothing; if the
`DJANGO_VITE` attribute is also defined, the legacy keys are ignored
with a mixing deprecation warning; otherwise a single "default" app is
built from the legacy keys with a deprecation warning. -/
def apply_legacy_django_vite_settings (s : SettingsModel)
    (apps : List (String × DjangoViteConfig)) :
    List (String × DjangoViteConfig) × List RegistryWarning :=
  if !hasLegacySettings s.legacy then (apps, [])
  else if s.djangoVite.isSome then (apps, [.mixedSettings])
  else (apps ++ [("default", legacyConfig s.legacy)], [.legacyDeprecation])

/-- Embedding of `DjangoViteAssetLoader.instance()`'s one-time
initialization (source lines 711-717): structured settings, then
legacy settings, then the default fallback (source lines 791-801). -/
def registryInit (s : SettingsModel) :
    List (String × DjangoViteConfig) × List RegistryWarning :=
  let apps1 := apply_django_vite_settings s
  let (apps2, warns) := apply_legacy_django_vite_settings s apps1
  (if apps2.isEmpty then [("default", {})] else apps2, warns)

/-- The manifest of the spec's worked example. -/
def exampleEntries : List (String × ManifestEntry) :=
  [("main.js", { file := "main.abc123.js", imports := ["lib.js"], css := ["main.css"] }),
   ("lib.js", { file := "lib.def456.js", css := ["lib.css"] })]

/-- A manifest client holding the example manifest. -/
def exampleClient : ManifestClient :=
  ⟨exampleEntries, none, "default", "manifest.json"⟩

/-- A probe that reaches no URL at all. -/
def deadProbe : String → Option Nat := fun _ => none

/-- A probe answering 404 on every URL (a live Vite dev server). -/
def liveProbe : String → Option Nat := fun _ => some 404

/-- A configuration requesting an `https` dev server. -/
def httpsConfig : DjangoViteConfig :=
  { dev_mode := true, dev_server_protocol := "https" }

/-- A probe that answers 404 at the https URL of `httpsConfig` and is
unreachable everywhere else: a dev server actually serving at the
configured protocol, host and port. -/
def httpsProbe : String → Option Nat :=
  fun u => if u = "https://localhost:5173/" then some 404 else none

/-- A manifest document with two keys both containing the default
legacy-polyfills motif. -/
def twoPolyfillsDoc : RawManifest :=
  [("vendor-legacy-polyfills.js", [("file", JsonVal.s "f1.js")]),
   ("extra-legacy-polyfills.js", [("file", JsonVal.s "f2.js")])]

/-- A manifest document whose second row lacks the `file` field. -/
def badRowDoc : RawManifest :=
  [("good.js", [("file", JsonVal.s "good.1234.js")]),
   ("bad.js", [("src", JsonVal.s "bad.ts")])]

theorem dedupNew_append (a b seen : List String) :
    dedupNew (a ++ b) seen = dedupNew a seen ++ dedupNew b (seen ++ dedupNew a seen) := by
  induction a generalizing seen with
  | nil => simp [dedupNew]
  | cons c rest ih =>
    have e1 : (c :: rest : List String) ++ b = c :: (rest ++ b) := rfl
    rw [e1]
    by_cases h : c ∈ seen
    · simp only [dedupNew, if_pos h]
      exact ih seen
    · simp only [dedupNew, if_neg h]
      rw [ih (seen ++ [c])]
      simp [List.append_assoc, List.singleton_append]

theorem dedupNew_nodup_fresh (raw : List String) : ∀ seen : List String,
    (dedupNew raw seen).Nodup ∧ ∀ c ∈ dedupNew raw seen, c ∉ seen := by
  induction raw with
  | nil => intro seen; simp [dedupNew]
  | cons c rest ih =>
    intro seen
    by_cases h : c ∈ seen
    · simp only [dedupNew, if_pos h]
      exact ih seen
    · simp only [dedupNew, if_neg h]
      obtain ⟨hnd, hfresh⟩ := ih (seen ++ [c])
      refine ⟨List.nodup_cons.mpr ⟨fun hc => ?_, hnd⟩, ?_⟩
      · exact hfresh c hc (by simp)
      · intro d hd
        rcases List.mem_cons.mp hd with rfl | hd'
        · exact h
        · intro hds
          exact hfresh d hd' (by simp [hds])

theorem cssOwnWalk_eq (config : DjangoViteConfig) (tagGen : String → Tag)
    (css : List String) : ∀ seen : List String,
    cssOwnWalk config tagGen css seen =
      ((dedupNew css seen).map (fun c => tagGen (get_production_server_url config c)),
        seen ++ dedupNew css seen) := by
  induction css with
  | nil => intro seen; simp [cssOwnWalk, dedupNew]
  | cons c rest ih =>
    intro seen
    by_cases h : c ∈ seen
    · simp only [cssOwnWalk, dedupNew, if_pos h]
      exact ih seen
    · simp only [cssOwnWalk, dedupNew, if_neg h]
      rw [ih (seen ++ [c])]
      simp [List.append_assoc, List.singleton_append]

theorem cssWalkPaths_spec (config : DjangoViteConfig) (st : ManifestClient)
    (tagGen : String → Tag) : ∀ (fuel : Nat) (paths seen : List String),
    cssWalkPaths config st tagGen fuel paths seen =
      cssWalkSpecOut config tagGen seen (cssDfsRaw st fuel paths) := by
  intro fuel
  induction fuel with
  | zero =>
    intro paths seen
    cases paths <;> simp [cssWalkPaths, cssDfsRaw, cssWalkSpecOut, dedupNew]
  | succ f ih =>
    intro paths seen
    cases paths with
    | nil => simp [cssWalkPaths, cssDfsRaw, cssWalkSpecOut, dedupNew]
    | cons i rest =>
      cases hget : st.get i with
      | error e => simp [cssWalkPaths, cssDfsRaw, hget, cssWalkSpecOut]
      | ok entry =>
        simp only [cssWalkPaths, cssDfsRaw, hget]
        rw [ih entry.imports seen]
        cases h1 : cssDfsRaw st f entry.imports with
        | error e => simp [h1, cssWalkSpecOut]
        | ok raw1 =>
          simp only [h1, cssWalkSpecOut]
          rw [cssOwnWalk_eq]
          rw [ih rest]
          cases h2 : cssDfsRaw st f rest with
          | error e => simp [h2, cssWalkSpecOut]
          | ok raw2 =>
            simp only [h2, cssWalkSpecOut]
            rw [List.append_assoc raw1 entry.css raw2,
              dedupNew_append raw1 (entry.css ++ raw2) seen,
              dedupNew_append entry.css raw2]
            simp [List.append_assoc]

theorem getImportFiles_spec (st : ManifestClient) :
    ∀ (l : List String) (files : List String), getImportFiles st l = .ok files →
      List.Forall₂ (fun d f => ∃ depEntry, st.get d = .ok depEntry ∧ f = depEntry.file) l files := by
  intro l
  induction l with
  | nil =>
    intro files h
    simp only [getImportFiles] at h
    cases h
    exact List.Forall₂.nil
  | cons d rest ih =>
    intro files h
    simp only [getImportFiles] at h
    cases hget : st.get d with
    | error e => rw [hget] at h; cases h
    | ok entry =>
      rw [hget] at h
      cases hrest : getImportFiles st rest with
      | error e => rw [hrest] at h; cases h
      | ok fs =>
        rw [hrest] at h
        cases h
        exact List.Forall₂.cons ⟨entry, hget, rfl⟩ (ih fs hrest)

/-- C1: in production mode (probe not live), `generate_vite_asset`
emits, in order, the deduplicated transitive CSS stylesheet tags, then
exactly one script tag for the entry's own file, then exactly one
modulepreload tag per path in the entry's immediate imports list (one
level only); in particular, on the example manifest,
`generate_vite_asset "main.js"` emits the stylesheet tags for
`lib.css` and `main.css`, the script tag for `main.abc123.js`, and the
preload tag for `lib.def456.js`, in that order. -/
theorem generate_vite_asset_production_layout :
    (∀ (fuel : Nat) (config : DjangoViteConfig) (probe : String → Option Nat)
        (st : ManifestClient) (path : String) (tags : List Tag),
      vite_is_serving config probe = false →
      generate_vite_asset fuel config probe st path = .ok tags →
      ∃ entry cssTags processed files,
        st.get path = .ok entry ∧
        generate_css_files_of_asset fuel config st path [] Tag.stylesheet = .ok (cssTags, processed) ∧
        getImportFiles st entry.imports = .ok files ∧
        List.Forall₂ (fun d f => ∃ depEntry, st.get d = .ok depEntry ∧ f = depEntry.file)
          entry.imports files ∧
        tags = cssTags ++ [Tag.script (get_production_server_url config entry.file)]
          ++ files.map (fun f => Tag.preload (get_production_server_url config f))) ∧
    generate_vite_asset 5 {} deadProbe exampleClient "main.js" =
      .ok [Tag.stylesheet "lib.css", Tag.stylesheet "main.css",
        Tag.script "main.abc123.js", Tag.preload "lib.def456.js"] := by
  constructor
  · intro fuel config probe st path tags hserve hgen
    simp only [generate_vite_asset, hserve, Bool.false_eq_true, if_false] at hgen
    cases hget : st.get path with
    | error e => simp [hget] at hgen
    | ok entry =>
      simp only [hget] at hgen
      cases hcss : generate_css_files_of_asset fuel config st path [] Tag.stylesheet with
      | error e => simp [hcss] at hgen
      | ok out =>
        obtain ⟨cssTags, processed⟩ := out
        simp only [hcss] at hgen
        cases hfiles : getImportFiles st entry.imports with
        | error e => simp [hfiles] at hgen
        | ok files =>
          simp only [hfiles] at hgen
          cases hgen
          exact ⟨entry, cssTags, processed, files, rfl, rfl, hfiles,
            getImportFiles_spec st entry.imports files hfiles, rfl⟩
  · rfl

/-- Witness for C1: the universal part instantiated on the example
manifest. -/
theorem generate_vite_asset_production_layout_witness :
    ∃ entry cssTags processed files,
      exampleClient.get "main.js" = .ok entry ∧
      generate_css_files_of_asset 5 {} exampleClient "main.js" [] Tag.stylesheet =
        .ok (cssTags, processed) ∧
      getImportFiles exampleClient entry.imports = .ok files ∧
      List.Forall₂
        (fun d f => ∃ depEntry, exampleClient.get d = .ok depEntry ∧ f = depEntry.file)
        entry.imports files ∧
      [Tag.stylesheet "lib.css", Tag.stylesheet "main.css",
          Tag.script "main.abc123.js", Tag.preload "lib.def456.js"] =
        cssTags ++ [Tag.script (get_production_server_url {} entry.file)]
          ++ files.map (fun f => Tag.preload (get_production_server_url {} f)) :=
  generate_vite_asset_production_layout.1 5 {} deadProbe exampleClient "main.js"
    [Tag.stylesheet "lib.css", Tag.stylesheet "main.css",
      Tag.script "main.abc123.js", Tag.preload "lib.def456.js"] rfl rfl

theorem string_append_cancel_left (a : String) {b c : String}
    (h : a ++ b = a ++ c) : b = c := by
  have hd : a.data ++ b.data = a.data ++ c.data := by
    have h2 := congrArg String.data h
    simpa [String.data_append] using h2
  cases b; cases c
  exact congrArg String.mk (List.append_cancel_left hd)

/-- C2: on inputs where the transitive CSS walk succeeds (an acyclic
graph of imports reachable from the path, all referenced keys present,
enough fuel), `_generate_css_files_of_asset` is deterministic and
idempotent — a second run on the same manifest returns the same tag
sequence — and its output is exactly the first-occurrence
deduplication of the raw depth-first CSS order (imports visited
recursively before the entry's own css list, in list order), so every
CSS path reachable via several import chains appears exactly once, at
the position of its first encounter. -/
theorem generate_css_files_dedup_first_encounter :
    ∀ (fuel : Nat) (config : DjangoViteConfig) (st : ManifestClient) (path : String)
      (tags : List Tag) (processed : List String),
      generate_css_files_of_asset fuel config st path [] Tag.stylesheet = .ok (tags, processed) →
      generate_css_files_of_asset fuel config st path [] Tag.stylesheet = .ok (tags, processed) ∧
      ∃ raw, cssDfsRaw st fuel [path] = .ok raw ∧
        tags = (dedupNew raw []).map
          (fun c => Tag.stylesheet (get_production_server_url config c)) ∧
        processed = dedupNew raw [] ∧
        tags.Nodup ∧ processed.Nodup := by
  intro fuel config st path tags processed h
  refine ⟨h, ?_⟩
  rw [generate_css_files_of_asset, cssWalkPaths_spec] at h
  cases hraw : cssDfsRaw st fuel [path] with
  | error e => rw [hraw] at h; cases h
  | ok raw =>
    rw [hraw] at h
    simp only [cssWalkSpecOut, List.nil_append] at h
    cases h
    refine ⟨raw, rfl, rfl, rfl, ?_, (dedupNew_nodup_fresh raw []).1⟩
    refine List.Nodup.map ?_ (dedupNew_nodup_fresh raw []).1
    intro a b hab
    replace hab : Tag.stylesheet (get_production_server_url config a) =
        Tag.stylesheet (get_production_server_url config b) := hab
    have h1 : ∀ s, get_production_server_url config s =
        (if config.staticUrlPref = "" then s
          else ensureTrailingSlash config.staticUrlPref ++ s) := fun s => rfl
    by_cases hp : config.staticUrlPref = ""
    · rw [h1 a, h1 b, if_pos hp, if_pos hp] at hab
      exact Tag.stylesheet.inj hab
    · rw [h1 a, h1 b, if_neg hp, if_neg hp] at hab
      exact string_append_cancel_left _ (Tag.stylesheet.inj hab)

/-- Witness for C2: the dedup theorem instantiated on the example
manifest. -/
theorem generate_css_files_dedup_first_encounter_witness :
    generate_css_files_of_asset 5 {} exampleClient "main.js" [] Tag.stylesheet =
      .ok ([Tag.stylesheet "lib.css", Tag.stylesheet "main.css"], ["lib.css", "main.css"]) ∧
    ∃ raw, cssDfsRaw exampleClient 5 ["main.js"] = .ok raw ∧
      [Tag.stylesheet "lib.css", Tag.stylesheet "main.css"] = (dedupNew raw []).map
        (fun c => Tag.stylesheet (get_production_server_url {} c)) ∧
      ["lib.css", "main.css"] = dedupNew raw [] ∧
      ([Tag.stylesheet "lib.css", Tag.stylesheet "main.css"] : List Tag).Nodup ∧
      (["lib.css", "main.css"] : List String).Nodup :=
  generate_css_files_dedup_first_encounter 5 {} exampleClient "main.js"
    [Tag.stylesheet "lib.css", Tag.stylesheet "main.css"] ["lib.css", "main.css"] rfl

theorem assocFind_eq_none {α : Type} (path : String) :
    ∀ l : List (String × α), path ∉ l.map Prod.fst → assocFind path l = none := by
  intro l
  induction l with
  | nil => intro _; rfl
  | cons kv rest ih =>
    intro hnot
    obtain ⟨k, v⟩ := kv
    simp only [List.map_cons, List.mem_cons] at hnot
    push_neg at hnot
    have hk : k ≠ path := fun he => hnot.1 he.symm
    simp only [assocFind, if_neg hk]
    exact ih hnot.2

theorem parse_manifest_keys (motif : String) :
    ∀ (doc : RawManifest) (entries : List (String × ManifestEntry))
      (poly : Option ManifestEntry),
      parse_manifest motif doc = .ok (entries, poly) →
      entries.map Prod.fst = doc.map Prod.fst := by
  intro doc
  induction doc with
  | nil =>
    intro entries poly h
    simp only [parse_manifest] at h
    cases h
    rfl
  | cons head rest ih =>
    intro entries poly h
    obtain ⟨q, row⟩ := head
    simp only [parse_manifest] at h
    cases hmk : mkManifestEntry row with
    | error e => rw [hmk] at h; cases h
    | ok entry =>
      rw [hmk] at h
      cases hrest : parse_manifest motif rest with
      | error e => rw [hrest] at h; cases h
      | ok out =>
        obtain ⟨entries', poly'⟩ := out
        rw [hrest] at h
        cases h
        simp only [List.map_cons]
        rw [ih entries' poly' hrest]

theorem parse_manifest_lookup (motif : String) :
    ∀ (doc : RawManifest) (entries : List (String × ManifestEntry))
      (poly : Option ManifestEntry),
      parse_manifest motif doc = .ok (entries, poly) →
      (doc.map Prod.fst).Nodup →
      ∀ (path : String) (row : RawEntry) (e : ManifestEntry),
        (path, row) ∈ doc → mkManifestEntry row = .ok e →
        assocFind path entries = some e := by
  intro doc
  induction doc with
  | nil =>
    intro entries poly h hnd path row e hmem
    cases hmem
  | cons head rest ih =>
    intro entries poly h hnd path row e hmem hmk
    obtain ⟨q, rowq⟩ := head
    simp only [parse_manifest] at h
    cases hmkq : mkManifestEntry rowq with
    | error er => rw [hmkq] at h; cases h
    | ok entryq =>
      rw [hmkq] at h
      cases hrest : parse_manifest motif rest with
      | error er => rw [hrest] at h; cases h
      | ok out =>
        obtain ⟨entries', poly'⟩ := out
        rw [hrest] at h
        cases h
        simp only [List.map_cons, List.nodup_cons] at hnd
        rcases List.mem_cons.mp hmem with heq | hmem'
        · have h1 : path = q := congrArg Prod.fst heq
          have h2 : row = rowq := congrArg Prod.snd heq
          subst h1
          subst h2
          rw [hmkq] at hmk
          cases hmk
          simp [assocFind]
        · have hqne : q ≠ path := by
            intro hqe
            exact hnd.1 (hqe ▸ List.mem_map.mpr ⟨(path, row), hmem', rfl⟩)
          simp only [assocFind, if_neg hqne]
          exact ih entries' poly' hrest hnd.2 path row e hmem' hmk

/-- C3: for a successfully parsed manifest, `ManifestClient.get`
returns exactly the entry constructed from the row stored under the
requested key; for a path that is not a key — including every path
when the table is empty because the manifest was never parsed in dev
mode — it fails with `DjangoViteAssetNotFoundError`, whose message
names the requested path, the application name and the manifest
path. -/
theorem manifest_get_exact :
    ∀ (motif : String) (doc : RawManifest) (entries : List (String × ManifestEntry))
      (poly : Option ManifestEntry) (app_name manifest_path path : String),
      parse_manifest motif doc = .ok (entries, poly) →
      ((doc.map Prod.fst).Nodup →
        ∀ (row : RawEntry) (e : ManifestEntry), (path, row) ∈ doc →
          mkManifestEntry row = .ok e →
          ManifestClient.get ⟨entries, poly, app_name, manifest_path⟩ path = .ok e) ∧
      (path ∉ doc.map Prod.fst →
        ManifestClient.get ⟨entries, poly, app_name, manifest_path⟩ path =
          .error (.assetNotFound ("Cannot find " ++ path ++ " for app=" ++ app_name
            ++ " in Vite manifest at " ++ manifest_path))) ∧
      ManifestClient.get ⟨[], none, app_name, manifest_path⟩ path =
        .error (.assetNotFound ("Cannot find " ++ path ++ " for app=" ++ app_name
          ++ " in Vite manifest at " ++ manifest_path)) := by
  intro motif doc entries poly app_name manifest_path path hparse
  refine ⟨?_, ?_, rfl⟩
  · intro hnd row e hmem hmk
    have hfind := parse_manifest_lookup motif doc entries poly hparse hnd path row e hmem hmk
    simp only [ManifestClient.get, hfind]
  · intro hnot
    have hkeys := parse_manifest_keys motif doc entries poly hparse
    have hfind : assocFind path entries = none :=
      assocFind_eq_none path entries (hkeys ▸ hnot)
    simp only [ManifestClient.get, hfind]

/-- Witness for C3: on the parsed two-row example document, `get`
returns the stored entry for `main.js`, and errors with the full
message on the empty dev-mode table. -/
theorem manifest_get_exact_witness :
    ManifestClient.get ⟨[("main.js", { file := "main.abc123.js" }),
        ("lib.js", { file := "lib.def456.js" })], none, "default", "manifest.json"⟩
      "main.js" = .ok { file := "main.abc123.js" } ∧
    ManifestClient.get ⟨[], none, "default", "manifest.json"⟩ "missing.js" =
      .error (.assetNotFound ("Cannot find " ++ "missing.js" ++ " for app=" ++ "default"
        ++ " in Vite manifest at " ++ "manifest.json")) :=
  ⟨(manifest_get_exact "legacy-polyfills"
      [("main.js", [("file", JsonVal.s "main.abc123.js")]),
        ("lib.js", [("file", JsonVal.s "lib.def456.js")])]
      [("main.js", { file := "main.abc123.js" }), ("lib.js", { file := "lib.def456.js" })]
      none "default" "manifest.json" "main.js" rfl).1 (by decide)
      [("file", JsonVal.s "main.abc123.js")] { file := "main.abc123.js" }
      (List.mem_cons_self _ _) rfl,
    (manifest_get_exact "legacy-polyfills"
      [("main.js", [("file", JsonVal.s "main.abc123.js")]),
        ("lib.js", [("file", JsonVal.s "lib.def456.js")])]
      [("main.js", { file := "main.abc123.js" }), ("lib.js", { file := "lib.def456.js" })]
      none "default" "manifest.json" "missing.js" rfl).2.2⟩

/-- Counterexample for C4: with `dev_server_protocol = "https"` and a
dev server actually answering 404 at `https://localhost:5173/`, the
probe still returns false, because the code requests the hard-coded
`http` URL — so the claim that the GET goes to the URL built from the
configured `dev_server_protocol` is false. -/
theorem vite_is_serving_ignores_protocol_counterexample :
    vite_is_serving httpsConfig httpsProbe = false ∧
    httpsProbe "https://localhost:5173/" = some 404 ∧
    viteWebserverUrl httpsConfig ≠ "https://" ++ httpsConfig.dev_server_host ++ ":"
      ++ toString httpsConfig.dev_server_port ++ "/" := by
  refine ⟨rfl, rfl, ?_⟩
  intro h
  exact absurd (congrArg (fun s => s.take 5) h) (by decide)

/-- C4 (amended): when `dev_mode` is false the probe returns false for
every network behaviour (no network call is observable); when
`dev_mode` is true it GETs `http://{host}:{port}/` — the scheme is
hard-coded to `http` and `dev_server_protocol` is ignored — returning
true exactly for a 404 response and false on connection failure. -/
theorem vite_is_serving_amended :
    ∀ (config : DjangoViteConfig) (probe : String → Option Nat),
      (config.dev_mode = false → vite_is_serving config probe = false) ∧
      (∀ proto : String,
        vite_is_serving { config with dev_server_protocol := proto } probe =
          vite_is_serving config probe) ∧
      (config.dev_mode = true →
        vite_is_serving config probe =
          match probe ("http://" ++ config.dev_server_host ++ ":"
              ++ toString config.dev_server_port ++ "/") with
          | some status => status == 404
          | none => false) := by
  intro config probe
  refine ⟨fun h => ?_, fun proto => rfl, fun h => ?_⟩
  · simp [vite_is_serving, h]
  · simp only [vite_is_serving, h, if_true, viteWebserverUrl]

/-- Witness for C4 (amended): a production configuration probes false
even against a live server, and `httpsConfig` probes `http://…`. -/
theorem vite_is_serving_amended_witness :
    vite_is_serving {} liveProbe = false ∧
    vite_is_serving { httpsConfig with dev_server_protocol := "wss" } liveProbe =
      vite_is_serving httpsConfig liveProbe ∧
    vite_is_serving httpsConfig liveProbe =
      match liveProbe ("http://" ++ httpsConfig.dev_server_host ++ ":"
          ++ toString httpsConfig.dev_server_port ++ "/") with
      | some status => status == 404
      | none => false :=
  ⟨(vite_is_serving_amended {} liveProbe).1 rfl,
    (vite_is_serving_amended httpsConfig liveProbe).2.1 "wss",
    (vite_is_serving_amended httpsConfig liveProbe).2.2 rfl⟩

/-- C5: whenever the probe reports the dev server live, the
production-only operations short-circuit for every manifest state —
`generate_vite_legacy_asset` and `preload_vite_asset` render nothing,
`generate_vite_legacy_polyfills` renders nothing, and
`generate_vite_asset` renders a single dev-server script tag — without
consulting the manifest table and without any manifest-related
error. -/
theorem dev_mode_short_circuit :
    ∀ (config : DjangoViteConfig) (probe : String → Option Nat) (st : ManifestClient)
      (path : String) (fuel : Nat),
      vite_is_serving config probe = true →
      generate_vite_legacy_asset config probe st path = .ok [] ∧
      preload_vite_asset fuel config probe st path = .ok [] ∧
      generate_vite_legacy_polyfills config probe st = .ok [] ∧
      generate_vite_asset fuel config probe st path =
        .ok [Tag.script (get_dev_server_url config path)] := by
  intro config probe st path fuel h
  refine ⟨?_, ?_, ?_, ?_⟩ <;>
    simp [generate_vite_legacy_asset, preload_vite_asset,
      generate_vite_legacy_polyfills, generate_vite_asset, h]

/-- Witness for C5: a dev-mode configuration with a live probe and a
manifest client whose table would be unusable (empty, no polyfills)
still renders the dev-mode outputs. -/
theorem dev_mode_short_circuit_witness :
    generate_vite_legacy_asset { dev_mode := true } liveProbe
      ⟨[], none, "default", "missing.json"⟩ "app.js" = .ok [] ∧
    preload_vite_asset 0 { dev_mode := true } liveProbe
      ⟨[], none, "default", "missing.json"⟩ "app.js" = .ok [] ∧
    generate_vite_legacy_polyfills { dev_mode := true } liveProbe
      ⟨[], none, "default", "missing.json"⟩ = .ok [] ∧
    generate_vite_asset 0 { dev_mode := true } liveProbe
      ⟨[], none, "default", "missing.json"⟩ "app.js" =
      .ok [Tag.script (get_dev_server_url { dev_mode := true } "app.js")] :=
  dev_mode_short_circuit { dev_mode := true } liveProbe
    ⟨[], none, "default", "missing.json"⟩ "app.js" 0 rfl

theorem parse_manifest_poly (motif : String) :
    ∀ (doc : RawManifest) (entries : List (String × ManifestEntry))
      (poly : Option ManifestEntry),
      parse_manifest motif doc = .ok (entries, poly) →
      poly = ((entries.filter (fun q => strContains q.1 motif)).getLast?).map Prod.snd := by
  intro doc
  induction doc with
  | nil =>
    intro entries poly h
    simp only [parse_manifest] at h
    cases h
    rfl
  | cons head rest ih =>
    intro entries poly h
    obtain ⟨q, rowq⟩ := head
    simp only [parse_manifest] at h
    cases hmk : mkManifestEntry rowq with
    | error e => rw [hmk] at h; cases h
    | ok entryq =>
      rw [hmk] at h
      cases hrest : parse_manifest motif rest with
      | error e => rw [hrest] at h; cases h
      | ok out =>
        obtain ⟨entries', poly'⟩ := out
        rw [hrest] at h
        cases h
        have ihp := ih entries' poly' hrest
        cases hc : strContains q motif with
        | false =>
          simp only [List.filter_cons, hc, Bool.false_eq_true, if_false]
          cases hpoly' : poly' with
          | none => subst hpoly'; simpa using ihp
          | some p => subst hpoly'; simpa using ihp
        | true =>
          simp only [List.filter_cons, hc, eq_self_iff_true, if_true]
          cases hF : entries'.filter (fun q => strContains q.1 motif) with
          | nil =>
            rw [hF] at ihp
            have hnone : poly' = none := by simpa using ihp
            subst hnone
            simp
          | cons x xs =>
            rw [hF] at ihp
            rw [List.getLast?_cons_cons]
            cases hl : (x :: xs).getLast? with
            | none => exact absurd (List.getLast?_eq_none_iff.mp hl) (by simp)
            | some l =>
              rw [hl] at ihp
              subst ihp
              rfl

/-- C6: after a successful parse, the retained legacy-polyfills entry
is that of the last key (in document order) containing the motif: for
exactly one matching key it is that key's entry, for several it is the
last match, and when no key matches it is absent and
`generate_vite_legacy_polyfills` (production mode) fails with
`DjangoViteAssetNotFoundError`. -/
theorem legacy_polyfills_last_match :
    ∀ (motif : String) (doc : RawManifest) (entries : List (String × ManifestEntry))
      (poly : Option ManifestEntry) (config : DjangoViteConfig)
      (probe : String → Option Nat) (app_name manifest_path : String),
      parse_manifest motif doc = .ok (entries, poly) →
      vite_is_serving config probe = false →
      (∀ (p : String) (e : ManifestEntry),
        entries.filter (fun q => strContains q.1 motif) = [(p, e)] → poly = some e) ∧
      poly = ((entries.filter (fun q => strContains q.1 motif)).getLast?).map Prod.snd ∧
      (entries.filter (fun q => strContains q.1 motif) = [] →
        poly = none ∧
        generate_vite_legacy_polyfills config probe
            ⟨entries, poly, app_name, manifest_path⟩ =
          .error (.assetNotFound ("Vite legacy polyfills not found in manifest at "
            ++ manifest_path))) := by
  intro motif doc entries poly config probe app_name manifest_path hparse hserve
  have hpoly := parse_manifest_poly motif doc entries poly hparse
  refine ⟨?_, hpoly, ?_⟩
  · intro p e hfilter
    rw [hfilter] at hpoly
    simpa using hpoly
  · intro hfilter
    rw [hfilter] at hpoly
    simp only [List.getLast?_nil, Option.map_none] at hpoly
    subst hpoly
    exact ⟨rfl, by simp [generate_vite_legacy_polyfills, hserve]⟩

/-- Witness for C6: with a single matching key the retained entry is
that key's, and with no matching key `generate_vite_legacy_polyfills`
fails with the full message. -/
theorem legacy_polyfills_last_match_witness :
    (some ({ file := "p.js" } : ManifestEntry) =
      ((([("app.js", ({ file := "a.js" } : ManifestEntry)),
          ("vendor-legacy-polyfills.js", { file := "p.js" })].filter
            (fun q => strContains q.1 "legacy-polyfills")).getLast?).map Prod.snd)) ∧
    generate_vite_legacy_polyfills {} deadProbe
        ⟨[("app.js", { file := "a.js" })], none, "default", "m.json"⟩ =
      .error (.assetNotFound ("Vite legacy polyfills not found in manifest at "
        ++ "m.json")) :=
  ⟨(legacy_polyfills_last_match "legacy-polyfills"
      [("app.js", [("file", JsonVal.s "a.js")]),
        ("vendor-legacy-polyfills.js", [("file", JsonVal.s "p.js")])]
      [("app.js", { file := "a.js" }), ("vendor-legacy-polyfills.js", { file := "p.js" })]
      (some { file := "p.js" }) {} deadProbe "default" "m.json" rfl rfl).2.1,
    ((legacy_polyfills_last_match "legacy-polyfills"
      [("app.js", [("file", JsonVal.s "a.js")])]
      [("app.js", { file := "a.js" })]
      none {} deadProbe "default" "m.json" rfl rfl).2.2 (by decide)).2⟩

/-- Counterexample for C7: on a manifest whose two keys both contain
the motif, the retained entry is that of the last matching key
(`f2.js`), not the first (`f1.js`) as the claim states. -/
theorem legacy_polyfills_first_match_counterexample :
    parse_manifest "legacy-polyfills" twoPolyfillsDoc =
      .ok ([("vendor-legacy-polyfills.js", { file := "f1.js" }),
        ("extra-legacy-polyfills.js", { file := "f2.js" })], some { file := "f2.js" }) ∧
    some ({ file := "f2.js" } : ManifestEntry) ≠ some ({ file := "f1.js" } : ManifestEntry) :=
  ⟨rfl, by decide⟩

/-- C7 (amended): when two or more keys contain the motif, the
retained `legacy_polyfills_entry` is the entry of the *last* matching
key in the manifest's key order (at most one entry is retained, the
field being a single optional slot). -/
theorem legacy_polyfills_retention_amended :
    ∀ (motif : String) (doc : RawManifest) (entries : List (String × ManifestEntry))
      (poly : Option ManifestEntry),
      parse_manifest motif doc = .ok (entries, poly) →
      poly = ((entries.filter (fun q => strContains q.1 motif)).getLast?).map Prod.snd := by
  intro motif doc entries poly hparse
  exact parse_manifest_poly motif doc entries poly hparse

/-- Witness for C7 (amended): on the two-match document the retained
entry is the last matching key's. -/
theorem legacy_polyfills_retention_amended_witness :
    (some ({ file := "f2.js" } : ManifestEntry) =
      ((([("vendor-legacy-polyfills.js", ({ file := "f1.js" } : ManifestEntry)),
          ("extra-legacy-polyfills.js", { file := "f2.js" })].filter
            (fun q => strContains q.1 "legacy-polyfills")).getLast?).map Prod.snd)) :=
  legacy_polyfills_retention_amended "legacy-polyfills" twoPolyfillsDoc
    [("vendor-legacy-polyfills.js", { file := "f1.js" }),
      ("extra-legacy-polyfills.js", { file := "f2.js" })]
    (some { file := "f2.js" }) rfl

/-- C8: with dev mode effectively off, a failing manifest parse is
swallowed at construction (the client is built with an empty table),
while `check` re-runs the parse and — never raising — returns exactly
one diagnostic with the stable id `django_vite.W001` and the hint
naming the app's `manifest_path` setting precisely when the parse
fails (the diagnostic's message carries the manifest path); afterwards
the failure surfaces only through `get` failing with
`DjangoViteAssetNotFoundError`. -/
theorem manifest_init_swallow_check_diagnose :
    ∀ (app_name manifest_path motif : String) (source : ManifestSource),
      (∀ (entries : List (String × ManifestEntry)) (poly : Option ManifestEntry),
        parse_manifest_full false app_name manifest_path motif source = .ok (entries, poly) →
        manifest_client_init false app_name manifest_path motif source =
          ⟨entries, poly, app_name, manifest_path⟩ ∧
        manifest_check false app_name manifest_path motif source = []) ∧
      (∀ e : String,
        parse_manifest_full false app_name manifest_path motif source = .error e →
        manifest_client_init false app_name manifest_path motif source =
          ⟨[], none, app_name, manifest_path⟩ ∧
        manifest_check false app_name manifest_path motif source =
          [{ msg := e
             wid := "django_vite.W001"
             hint := "Make sure you have generated a manifest file, and that DJANGO_VITE[\""
               ++ app_name ++ "\"][\"manifest_path\"] points to the correct location." }] ∧
        (∃ inner, e = wrap_manifest_error app_name manifest_path inner) ∧
        ∀ path : String,
          (manifest_client_init false app_name manifest_path motif source).get path =
            .error (.assetNotFound ("Cannot find " ++ path ++ " for app=" ++ app_name
              ++ " in Vite manifest at " ++ manifest_path))) := by
  intro app_name manifest_path motif source
  constructor
  · intro entries poly h
    constructor
    · simp only [manifest_client_init, h]
    · simp only [manifest_check, h]
  · intro e h
    have hinit : manifest_client_init false app_name manifest_path motif source =
        ⟨[], none, app_name, manifest_path⟩ := by
      simp only [manifest_client_init, h]
    refine ⟨hinit, by simp only [manifest_check, h], ?_, ?_⟩
    · simp only [parse_manifest_full, Bool.false_eq_true, if_false] at h
      cases source with
      | unreadable msg =>
        exact ⟨msg, by cases h; rfl⟩
      | doc d =>
        dsimp only at h
        cases hp : parse_manifest motif d with
        | ok out => rw [hp] at h; cases h
        | error e' => rw [hp] at h; cases h; exact ⟨e', rfl⟩
    · intro path
      rw [hinit]
      rfl

/-- Witness for C8: an unreadable manifest source yields the empty
client, the single diagnostic, and a failing `get`. -/
theorem manifest_init_swallow_check_diagnose_witness :
    manifest_client_init false "default" "m.json" "legacy-polyfills" (.unreadable "boom") =
      ⟨[], none, "default", "m.json"⟩ ∧
    manifest_check false "default" "m.json" "legacy-polyfills" (.unreadable "boom") =
      [{ msg := wrap_manifest_error "default" "m.json" "boom"
         wid := "django_vite.W001"
         hint := "Make sure you have generated a manifest file, and that DJANGO_VITE[\""
           ++ "default" ++ "\"][\"manifest_path\"] points to the correct location." }] ∧
    (∃ inner, wrap_manifest_error "default" "m.json" "boom" =
      wrap_manifest_error "default" "m.json" inner) ∧
    ∀ path : String,
      (manifest_client_init false "default" "m.json" "legacy-polyfills"
          (.unreadable "boom")).get path =
        .error (.assetNotFound ("Cannot find " ++ path ++ " for app=" ++ "default"
          ++ " in Vite manifest at " ++ "m.json")) :=
  (manifest_init_swallow_check_diagnose "default" "m.json" "legacy-polyfills"
    (.unreadable "boom")).2 (wrap_manifest_error "default" "m.json" "boom") rfl

/-- C9: registry initialization layering — with both a (nonempty)
structured `DJANGO_VITE` setting and legacy flat keys present, the app
set matches the structured setting alone and a mixing deprecation
warning is emitted; with only legacy keys, exactly one "default" app
is built with fields mapped one-to-one from the legacy keys and a
deprecation warning; with neither, exactly one "default" app with the
hard-coded defaults. -/
theorem registry_layering :
    ∀ (s : SettingsModel) (d : List (String × DjangoViteConfig)),
      (s.djangoVite = some d → d ≠ [] → hasLegacySettings s.legacy = true →
        registryInit s = (d, [RegistryWarning.mixedSettings])) ∧
      (s.djangoVite = none → hasLegacySettings s.legacy = true →
        registryInit s =
          ([("default", legacyConfig s.legacy)], [RegistryWarning.legacyDeprecation])) ∧
      (s.djangoVite = none → hasLegacySettings s.legacy = false →
        registryInit s = ([("default", {})], [])) ∧
      ((legacyConfig s.legacy).dev_mode = s.legacy.dev_mode.getD false ∧
        (legacyConfig s.legacy).dev_server_protocol = s.legacy.dev_server_protocol.getD "http" ∧
        (legacyConfig s.legacy).dev_server_host = s.legacy.dev_server_host.getD "localhost" ∧
        (legacyConfig s.legacy).dev_server_port = s.legacy.dev_server_port.getD 5173 ∧
        (legacyConfig s.legacy).staticUrlPref = s.legacy.static_url_pref.getD "" ∧
        (legacyConfig s.legacy).manifest_path = s.legacy.manifest_path ∧
        (legacyConfig s.legacy).legacy_polyfills_motif =
          s.legacy.legacy_polyfills_motif.getD "legacy-polyfills" ∧
        (legacyConfig s.legacy).ws_client_url = s.legacy.ws_client_url.getD "@vite/client" ∧
        (legacyConfig s.legacy).react_refresh_url =
          s.legacy.react_refresh_url.getD "@react-refresh") := by
  intro s d
  refine ⟨?_, ?_, ?_, rfl, rfl, rfl, rfl, rfl, rfl, rfl, rfl, rfl⟩
  · intro hdj hne hleg
    have hni : d.isEmpty = false := by
      cases d with
      | nil => exact absurd rfl hne
      | cons a t => rfl
    simp [registryInit, apply_django_vite_settings, apply_legacy_django_vite_settings,
      hdj, hleg, hni]
  · intro hdj hleg
    simp [registryInit, apply_django_vite_settings, apply_legacy_django_vite_settings,
      hdj, hleg]
  · intro hdj hleg
    simp [registryInit, apply_django_vite_settings, apply_legacy_django_vite_settings,
      hdj, hleg]

/-- Witness for C9: the three layering cases on concrete settings. -/
theorem registry_layering_witness :
    registryInit
        { djangoVite := some [("app1", { dev_mode := true })]
          legacy := { dev_mode := some false } } =
      ([("app1", { dev_mode := true })], [RegistryWarning.mixedSettings]) ∧
    registryInit { legacy := { dev_server_host := some "h" } } =
      ([("default", legacyConfig { dev_server_host := some "h" })],
        [RegistryWarning.legacyDeprecation]) ∧
    registryInit {} = ([("default", {})], []) :=
  ⟨(registry_layering
      { djangoVite := some [("app1", { dev_mode := true })]
        legacy := { dev_mode := some false } } [("app1", { dev_mode := true })]).1
      rfl (List.cons_ne_nil _ _) rfl,
    (registry_layering { legacy := { dev_server_host := some "h" } } []).2.1 rfl rfl,
    (registry_layering {} []).2.2.1 rfl rfl⟩

theorem mkManifestEntry_missing_file (row : RawEntry)
    (h : assocFind "file" (filterManifestFields row) = none) :
    mkManifestEntry row = .error "missing 1 required positional argument: file" := by
  simp only [mkManifestEntry, getStrField, h]
  rfl

theorem parse_manifest_error_of_mem (motif : String) :
    ∀ (doc : RawManifest) (p : String) (row : RawEntry),
      (p, row) ∈ doc → (∃ em, mkManifestEntry row = .error em) →
      ∃ e, parse_manifest motif doc = .error e := by
  intro doc
  induction doc with
  | nil => intro p row hmem; cases hmem
  | cons head rest ih =>
    intro p row hmem hbad
    obtain ⟨q, rowq⟩ := head
    cases hmk : mkManifestEntry rowq with
    | error e => exact ⟨e, by simp only [parse_manifest, hmk]⟩
    | ok entryq =>
      rcases List.mem_cons.mp hmem with heq | hmem'
      · obtain ⟨em, hem⟩ := hbad
        have h2 : row = rowq := congrArg Prod.snd heq
        rw [h2, hmk] at hem
        cases hem
      · obtain ⟨e, he⟩ := ih p row hmem' hbad
        refine ⟨e, ?_⟩
        simp only [parse_manifest, hmk, he]

/-- C10: a manifest document containing one top-level row that lacks
the `file` field (after unknown fields are dropped) fails to parse as
a whole: construction leaves the entry table empty — no row of the
document, well-formed or not, is retained — and every subsequent
lookup fails with `DjangoViteAssetNotFoundError`. -/
theorem missing_file_field_poisons_whole_parse :
    ∀ (motif : String) (doc : RawManifest) (app_name manifest_path p : String)
      (row : RawEntry),
      (p, row) ∈ doc →
      assocFind "file" (filterManifestFields row) = none →
      (∃ e, parse_manifest motif doc = .error e) ∧
      manifest_client_init false app_name manifest_path motif (.doc doc) =
        ⟨[], none, app_name, manifest_path⟩ ∧
      ∀ path : String,
        (manifest_client_init false app_name manifest_path motif (.doc doc)).get path =
          .error (.assetNotFound ("Cannot find " ++ path ++ " for app=" ++ app_name
            ++ " in Vite manifest at " ++ manifest_path)) := by
  intro motif doc app_name manifest_path p row hmem hfile
  obtain ⟨e, he⟩ := parse_manifest_error_of_mem motif doc p row hmem
    ⟨_, mkManifestEntry_missing_file row hfile⟩
  have hinit : manifest_client_init false app_name manifest_path motif (.doc doc) =
      ⟨[], none, app_name, manifest_path⟩ := by
    simp only [manifest_client_init, parse_manifest_full, Bool.false_eq_true, if_false, he]
  refine ⟨⟨e, he⟩, hinit, ?_⟩
  intro path
  rw [hinit]
  rfl

/-- Witness for C10: on the two-row document whose second row lacks
`file`, the whole parse fails, the client is empty, and even the
well-formed `good.js` is unresolvable. -/
theorem missing_file_field_poisons_whole_parse_witness :
    (∃ e, parse_manifest "legacy-polyfills" badRowDoc = .error e) ∧
    manifest_client_init false "default" "m.json" "legacy-polyfills" (.doc badRowDoc) =
      ⟨[], none, "default", "m.json"⟩ ∧
    ∀ path : String,
      (manifest_client_init false "default" "m.json" "legacy-polyfills"
          (.doc badRowDoc)).get path =
        .error (.assetNotFound ("Cannot find " ++ path ++ " for app=" ++ "default"
          ++ " in Vite manifest at " ++ "m.json")) :=
  missing_file_field_poisons_whole_parse "legacy-polyfills" badRowDoc "default" "m.json"
    "bad.js" [("src", JsonVal.s "bad.ts")]
    (by decide) rfl
